import Mathlib

/-!
Shallow embedding of the metashrew synchronizer core:
the store adapters in `dynamodb-runtime/src/lib.rs` and `keydb/src/main.rs`
(key namespacing, retry-with-reconnect, batched writes with tip-height
injection, tip-height decoding) and the reorg resolver / sync loop in
`keydb/src/main.rs` (`best_height`, `query_height`, `run`).

Bytes are modelled as `List Nat` (each entry a byte value), heights as `Nat`
with explicit `% 2^32` where 32-bit wrap matters, and fallible operations as
`Except String`.
-/

/-- Separator bytes of the string `"://"` appended to the namespace label by
`set_label` in `dynamodb-runtime/src/lib.rs`. -/
def LABEL_SEP : List Nat := [58, 47, 47]

/-- `set_label(s)`: stores `s + "://"` as the process-wide namespace label. -/
def set_label (s : List Nat) : Option (List Nat) := some (s ++ LABEL_SEP)

/-- `to_labeled_key` from `dynamodb-runtime/src/lib.rs`: prepend the label
bytes when a label is set, otherwise return the key unchanged. -/
def to_labeled_key (label : Option (List Nat)) (key : List Nat) : List Nat :=
  match label with
  | some l => l ++ key
  | none => key

/-- `to_redis_key` from `dynamodb-runtime/src/lib.rs`: the write-path key
mapping; prepends the label bytes when a label is set, otherwise falls back
to `to_redis_args` (the raw key). -/
def to_redis_key (label : Option (List Nat)) (k : List Nat) : List Nat :=
  match label with
  | some l => l ++ k
  | none => k

/-- `to_redis_args` restricted to the single key argument: the raw key,
with no label applied.  Used by the adapter's `get` and `delete`. -/
def to_redis_args_key (k : List Nat) : List Nat := k

/-- The key-value store contents: an association list, most recent put first. -/
def Store : Type := List (List Nat × List Nat)

/-- Store lookup: value of the first matching key, if any. -/
def storeGet (s : Store) (k : List Nat) : Option (List Nat) :=
  match s with
  | [] => none
  | (k2, v) :: rest => if k2 = k then some v else storeGet rest k

/-- Store insert (a redis `SET`). -/
def storePut (s : Store) (k v : List Nat) : Store := (k, v) :: s

/-- Store delete (a redis `DEL`). -/
def storeDel (s : Store) (k : List Nat) : Store :=
  List.filter (fun p => decide (p.1 ≠ k)) s

/-- Adapter `put` (single successful attempt): writes under `to_redis_key`. -/
def adapter_put (label : Option (List Nat)) (s : Store) (k v : List Nat) : Store :=
  storePut s (to_redis_key label k) v

/-- Adapter `get` (single successful attempt): reads under `to_redis_args`,
exactly as `RedisRuntimeAdapter::get` in `dynamodb-runtime/src/lib.rs` does. -/
def adapter_get (s : Store) (k : List Nat) : Option (List Nat) :=
  storeGet s (to_redis_args_key k)

/-- The reserved tip-height key `"/__INTERNAL/tip-height"` as bytes. -/
def TIP_HEIGHT_KEY : List Nat :=
  [47, 95, 95, 73, 78, 84, 69, 82, 78, 65, 76, 47,
   116, 105, 112, 45, 104, 101, 105, 103, 104, 116]

/-- Little-endian 4-byte encoding of a 32-bit value (`u32::to_le_bytes`). -/
def le32 (n : Nat) : List Nat :=
  [n % 256, n / 256 % 256, n / 65536 % 256, n / 16777216 % 256]

/-- `RedisRuntimeAdapter::write` in `dynamodb-runtime/src/lib.rs`, viewed as
the sequence of atomic command groups it submits: the caller's batch with
`(self.2 + 1).to_le_bytes()` appended under the tip-height key via
`batch.put` (so through `to_redis_key`), all in one pipeline. -/
def write_units_dyn (label : Option (List Nat)) (h2 : Nat)
    (batch : List (List Nat × List Nat)) : List (List (List Nat × List Nat)) :=
  [batch ++ [(to_redis_key label TIP_HEIGHT_KEY, le32 ((h2 + 1) % 4294967296))]]

/-- `RedisRuntimeAdapter::write` in `keydb/src/main.rs`, viewed as the
sequence of atomic command groups it submits: first a standalone `SET` of the
tip-height key to the global `_HEIGHT` value, then the caller's pipeline. -/
def write_units_keydb (g : Nat) (batch : List (List Nat × List Nat)) :
    List (List (List Nat × List Nat)) :=
  [[(TIP_HEIGHT_KEY, le32 (g % 4294967296))], batch]

/-- The store states reachable if the process crashes between atomic command
groups: for each prefix of the unit list, the puts of that prefix. -/
def crash_states (units : List (List (List Nat × List Nat))) :
    List (List (List Nat × List Nat)) :=
  (List.range (units.length + 1)).map (fun i => List.flatten (units.take i))

/-- Apply a list of puts to a store in order. -/
def apply_puts (s : Store) (ps : List (List Nat × List Nat)) : Store :=
  ps.foldl (fun acc p => storePut acc p.1 p.2) s

/-- The fixed backoff of `wait_timeout` in `dynamodb-runtime/src/lib.rs`,
in milliseconds. -/
def TIMEOUT : Nat := 1500

/-- The retry-with-reconnect loop shared by `get`, `put`, `delete` and
`write` in `dynamodb-runtime/src/lib.rs`: try the operation; on success
return its value, on failure reset the connection (waiting `TIMEOUT` ms) and
retry.  `attempts j` is the outcome of the j-th try; the `fuel` argument
bounds how far the (in the source, unbounded) loop is unrolled, `none`
meaning the loop is still retrying.  The second component of the result is
the total backoff time waited. -/
def retryOp {A : Type} (attempts : Nat → Except String A) : Nat → Option (A × Nat)
  | 0 => none
  | fuel + 1 =>
    match attempts 0 with
    | Except.ok v => some (v, 0)
    | Except.error _ =>
      Option.map (fun p => (p.1, p.2 + TIMEOUT)) (retryOp (fun j => attempts (j + 1)) fuel)

/-- A store endpoint whose first `failN` attempts fail with a transport error
and which from then on succeeds returning `a`. -/
def transport_attempts {A : Type} (failN : Nat) (a : A) : Nat → Except String A :=
  fun j => if j < failN then Except.error "transport" else Except.ok a

/-- Adapter `get` with the retry loop, against a store failing its first
`failN` attempts.  The key goes through `to_redis_args` as in the source. -/
def adapter_get_retry (s : Store) (failN : Nat) (k : List Nat) (fuel : Nat) :
    Option (Option (List Nat) × Nat) :=
  retryOp (transport_attempts failN (storeGet s (to_redis_args_key k))) fuel

/-- Adapter `put` with the retry loop; the key goes through `to_redis_key`. -/
def adapter_put_retry (label : Option (List Nat)) (s : Store) (failN : Nat)
    (k v : List Nat) (fuel : Nat) : Option (Store × Nat) :=
  retryOp (transport_attempts failN (storePut s (to_redis_key label k) v)) fuel

/-- Adapter `delete` with the retry loop; the key goes through
`to_redis_args`. -/
def adapter_del_retry (s : Store) (failN : Nat) (k : List Nat) (fuel : Nat) :
    Option (Store × Nat) :=
  retryOp (transport_attempts failN (storeDel s (to_redis_args_key k))) fuel

/-- Adapter `write` with the retry loop: commits the caller's batch together
with the injected tip-height put as one unit. -/
def adapter_write_retry (label : Option (List Nat)) (s : Store) (failN h2 : Nat)
    (batch : List (List Nat × List Nat)) (fuel : Nat) : Option (Store × Nat) :=
  retryOp
    (transport_attempts failN
      (apply_puts s (List.flatten (write_units_dyn label h2 batch)))) fuel

/-- `u32::from_le_bytes` applied to a byte vector coming from the store:
`try_into::<[u8; 4]>` succeeds exactly on length-4 vectors, so any other
length yields `none` (an `unwrap` panic in the source). -/
def from_le_bytes (bytes : List Nat) : Option Nat :=
  match bytes with
  | [a, b, c, d] => some (a + 256 * b + 65536 * c + 16777216 * d)
  | _ => none

/-- Result of reading the tip height: either a height or a decode panic. -/
inductive HeightResult
  | value (h : Nat)
  | panicked
deriving DecidableEq

/-- `query_height` from `dynamodb-runtime/src/lib.rs` (the copy in
`keydb/src/main.rs` is identical up to key labeling): `stored` is the byte
vector under the tip-height key (`none` when the read errs or the key is
absent); an absent or empty value yields `start_block`, otherwise the four
little-endian bytes are decoded, panicking on any other length. -/
def query_height (stored : Option (List Nat)) (start_block : Nat) : HeightResult :=
  match stored with
  | none => HeightResult.value start_block
  | some bytes =>
    if bytes.length = 0 then HeightResult.value start_block
    else
      match from_le_bytes bytes with
      | some n => HeightResult.value n
      | none => HeightResult.panicked

/-- Unsigned 32-bit subtraction with wraparound, as performed by
`tip - 6` in `best_height` of `keydb/src/main.rs` (release-mode `u32`
arithmetic). -/
def u32sub (a b : Nat) : Nat := (a + 4294967296 - b) % 4294967296

/-- The backward walk of `best_height` in `keydb/src/main.rs`: at height 0
stop (`break` before any hash is read); otherwise read the local hash for
the current height (`Err("failed to retrieve blockhash")` when the ledger
has no entry), compare it with the remote chain's hash at that height, stop
on a match and step down one height on a mismatch. -/
def best_height_walk (ledger : Nat → Option (List Nat))
    (remote : Nat → List Nat) : Nat → Except String Nat
  | 0 => Except.ok 0
  | n + 1 =>
    match ledger (n + 1) with
    | none => Except.error "failed to retrieve blockhash"
    | some hsh =>
      if hsh = remote (n + 1) then Except.ok (n + 1)
      else best_height_walk ledger remote n

/-- The number of local-blockhash retrievals (each paired with one remote
fetch and one comparison) the backward walk performs: one per visited height
until it stops, none at the forced height-0 stop. -/
def walk_calls (ledger : Nat → Option (List Nat))
    (remote : Nat → List Nat) : Nat → Nat
  | 0 => 0
  | n + 1 =>
    match ledger (n + 1) with
    | none => 1
    | some hsh =>
      if hsh = remote (n + 1) then 1
      else walk_calls ledger remote n + 1

/-- `best_height` from `keydb/src/main.rs`: fetch the remote tip, and when
`candidate >= tip - 6` (u32 arithmetic) run the backward walk from the
candidate, otherwise return the candidate unchanged. -/
def best_height (ledger : Nat → Option (List Nat)) (remote : Nat → List Nat)
    (tip candidate : Nat) : Except String Nat :=
  if u32sub tip 6 ≤ candidate then best_height_walk ledger remote candidate
  else Except.ok candidate

/-- The number of local-blockhash retrievals (and hence comparisons against
the remote chain) `best_height` performs: those of the walk when the guard
passes, none otherwise. -/
def best_height_calls (ledger : Nat → Option (List Nat))
    (remote : Nat → List Nat) (tip candidate : Nat) : Nat :=
  if u32sub tip 6 ≤ candidate then walk_calls ledger remote candidate
  else 0

/-- The `run` loop's handling of the resolver result in `keydb/src/main.rs`:
`match self.best_height(i).await { Ok(v) => v, Err(_) => i }` — an error is
mapped to the unresolved candidate and the iteration continues. -/
def bestOf (r : Except String Nat) (i : Nat) : Nat :=
  match r with
  | Except.ok v => v
  | Except.error _ => i

/-- Outcome of one `self.runtime.run()` call of the external indexing
engine. -/
inductive RunOutcome
  | success
  | failure (e : String)

/-- Observable trace of one sync-loop iteration's indexing phase. -/
structure IterationTrace where
  runHeights : List Nat
  refreshCalls : Nat
  fatal : Bool
  committed : Bool

/-- The indexing phase of one iteration of `run` in `keydb/src/main.rs`: run
the engine once; on failure call `refresh_memory` once and retry once; a
second failure panics.  Modelled from the spec: `MetashrewRuntime::run` (the
external indexing engine, not under src/) either completes, committing its
batch write for the height, or fails committing nothing, per the §6 boundary
contract; the retry/reset/panic structure itself is from `run` in
`keydb/src/main.rs`. -/
def index_block (h : Nat) (first retry : RunOutcome) : IterationTrace :=
  match first with
  | RunOutcome.success => ⟨[h], 0, false, true⟩
  | RunOutcome.failure _ =>
    match retry with
    | RunOutcome.success => ⟨[h, h], 1, false, true⟩
    | RunOutcome.failure _ => ⟨[h, h], 1, true, false⟩

/-- The sync loop's mutable state in `keydb/src/main.rs`: the local height
cursor `i` and the global `_HEIGHT` written by the adapter's batch write
(statically initialized to 0). -/
structure SyncState where
  i : Nat
  gHeight : Nat

/-- One iteration of `run` (with successful indexing): compute
`best = bestOf (resolve i) i`, index height `best` (the batch write issued
during this iteration records the current `_HEIGHT`), then set `i = i + 1`
and `_HEIGHT = i`.  Returns the new state, the height indexed, and the tip
value recorded by this iteration's batch write. -/
def run_iter (resolve : Nat → Except String Nat) (s : SyncState) :
    SyncState × Nat × Nat :=
  (⟨s.i + 1, s.i + 1⟩, bestOf (resolve s.i) s.i, s.gHeight)

/-- The sync-loop state before iteration `k`, starting from the height
`h0` returned by `query_height` and the static `_HEIGHT = 0`. -/
def run_state (resolve : Nat → Except String Nat) (h0 : Nat) : Nat → SyncState
  | 0 => ⟨h0, 0⟩
  | k + 1 => (run_iter resolve (run_state resolve h0 k)).1

/-- The height indexed during iteration `k` of `run`. -/
def indexed_at (resolve : Nat → Except String Nat) (h0 k : Nat) : Nat :=
  (run_iter resolve (run_state resolve h0 k)).2.1

/-- The tip value recorded by the batch write issued during iteration `k`. -/
def recorded_at (resolve : Nat → Except String Nat) (h0 k : Nat) : Nat :=
  (run_iter resolve (run_state resolve h0 k)).2.2

/-- A concrete ledger for witnesses: hash `[1]` at height 9, `[0]` elsewhere. -/
def ledgerW (n : Nat) : Option (List Nat) :=
  if n = 9 then some [1] else some [0]

/-- A concrete remote chain for witnesses: hash `[0]` at every height. -/
def remoteW (_ : Nat) : List Nat := [0]

/-- A concrete ledger with a gap: no entry at height 9, `[0]` elsewhere. -/
def ledgerGap (n : Nat) : Option (List Nat) :=
  if n = 9 then none else some [0]

/-- A resolver that always returns its candidate unchanged (no reorg). -/
def resolveW (n : Nat) : Except String Nat := Except.ok n

/-- When the remote tip is at least 6 (and a valid u32), the guard value
`tip - 6` computed by `best_height` is the plain difference. -/
theorem u32sub_six_ge (tip : Nat) (h6 : 6 ≤ tip) (hlt : tip < 4294967296) :
    u32sub tip 6 = tip - 6 := by
  unfold u32sub
  have h1 : tip + 4294967296 - 6 = (tip - 6) + 4294967296 := by omega
  rw [h1, Nat.add_mod_right]
  exact Nat.mod_eq_of_lt (by omega)

/-- When the remote tip is below 6, the u32 subtraction `tip - 6` wraps. -/
theorem u32sub_six_lt (tip : Nat) (h6 : tip < 6) :
    u32sub tip 6 = tip + 4294967290 := by
  unfold u32sub
  have h1 : tip + 4294967296 - 6 = tip + 4294967290 := by omega
  rw [h1]
  exact Nat.mod_eq_of_lt (by omega)

/-- C1: the claim that namespacing is applied consistently by every read and
write path fails on the code: with label `"foo"` set, `put("bar", v)` stores
`v` under `"foo://bar"` (`to_redis_key`), but `get("bar")` reads the raw key
`"bar"` (`to_redis_args`), so a get after a put of the same raw key returns
nothing; only the no-label halves of the two paths agree. -/
theorem label_get_put_mismatch :
    to_redis_key (set_label [102, 111, 111]) [98, 97, 114] =
      [102, 111, 111, 58, 47, 47, 98, 97, 114] ∧
    adapter_get (adapter_put (set_label [102, 111, 111]) [] [98, 97, 114] [7])
      [98, 97, 114] = none ∧
    adapter_get (adapter_put none [] [98, 97, 114] [7]) [98, 97, 114] =
      some [7] := by
  refine ⟨rfl, rfl, rfl⟩

/-- C2: the claim that the adapter adds the advanced tip height to the same
atomic batch fails on the keydb binary: its `write` issues the tip-height
`SET` (with value `_HEIGHT`, not the counter plus one) as a standalone
command before the caller's pipeline, so the crash state after that first
command shows the tip advanced with the caller's mutation absent.  The
dynamodb-runtime adapter, by contrast, appends the `(self.2 + 1)` tip put to
the caller's own pipeline, and every one of its crash states contains either
both the mutation and the tip put or neither. -/
theorem keydb_write_not_atomic :
    (∃ s ∈ crash_states (write_units_keydb 5 [([1], [2])]),
      (TIP_HEIGHT_KEY, le32 5) ∈ s ∧ ([1], [2]) ∉ s) ∧
    (∀ s ∈ crash_states (write_units_dyn none 5 [([1], [2])]),
      s = [] ∨ (([1], [2]) ∈ s ∧ (TIP_HEIGHT_KEY, le32 6) ∈ s)) := by
  constructor
  · exact ⟨[(TIP_HEIGHT_KEY, le32 5)], by decide⟩
  · decide

/-- Soundness of the backward walk: a successful result is at or below the
starting height, carries a local hash matching the remote one (unless it is
the height-0 forced stop), and every height strictly between the result and
the start had a recorded local hash differing from the remote one. -/
theorem walk_ok_spec (ledger : Nat → Option (List Nat))
    (remote : Nat → List Nat) :
    ∀ c m, best_height_walk ledger remote c = Except.ok m →
      m ≤ c ∧ (m = 0 ∨ ledger m = some (remote m)) ∧
      ∀ k, m < k → k ≤ c → ledger k ≠ some (remote k) := by
  intro c
  induction c with
  | zero =>
    intro m hm
    simp only [best_height_walk, Except.ok.injEq] at hm
    subst hm
    exact ⟨Nat.le_refl 0, Or.inl rfl,
      fun k hk1 hk2 => absurd (Nat.lt_of_lt_of_le hk1 hk2) (Nat.lt_irrefl 0)⟩
  | succ n ih =>
    intro m hm
    rw [best_height_walk] at hm
    cases hl : ledger (n + 1) with
    | none => rw [hl] at hm; simp at hm
    | some hsh =>
      rw [hl] at hm
      by_cases heq : hsh = remote (n + 1)
      · simp only [heq, if_true, eq_self_iff_true, ite_true, Except.ok.injEq] at hm
        subst hm
        refine ⟨Nat.le_refl _, Or.inr (by rw [hl, heq]), fun k hk1 hk2 => ?_⟩
        exact absurd (Nat.lt_of_lt_of_le hk1 hk2) (Nat.lt_irrefl _)
      · simp only [heq, ite_false, if_false] at hm
        obtain ⟨h1, h2, h3⟩ := ih m hm
        refine ⟨Nat.le_succ_of_le h1, h2, fun k hk1 hk2 => ?_⟩
        rcases Nat.lt_or_ge k (n + 1) with hk | hk
        · exact h3 k hk1 (Nat.lt_succ_iff.mp hk)
        · have hk2n : k = n + 1 := Nat.le_antisymm hk2 hk
          subst hk2n
          rw [hl]
          intro hcontra
          apply heq
          injection hcontra

/-- When the candidate passes the guard, `best_height` runs the walk. -/
theorem best_height_guard_true (ledger : Nat → Option (List Nat))
    (remote : Nat → List Nat) (tip c : Nat) (hc : u32sub tip 6 ≤ c) :
    best_height ledger remote tip c = best_height_walk ledger remote c := by
  rw [best_height]
  rw [if_pos hc]

/-- C3: within the unstable region (the candidate passes the `tip - 6`
guard), if the locally recorded blockhash at the candidate height `h`
differs from the remote one and the local hash at `h - 1` equals the remote
one, `best_height` returns `h - 1`; and in general a successful resolution
from any candidate in the region returns the first height at or below the
candidate whose local and remote hashes match (or the forced stop at 0),
every height above it up to the candidate having mismatched. -/
theorem best_height_reorg_step (ledger : Nat → Option (List Nat))
    (remote : Nat → List Nat) (tip h : Nat) (a : List Nat)
    (hguard : u32sub tip 6 ≤ h) (h1 : 1 ≤ h)
    (ha : ledger h = some a) (hne : a ≠ remote h)
    (hb : ledger (h - 1) = some (remote (h - 1))) :
    best_height ledger remote tip h = Except.ok (h - 1) ∧
    ∀ c m, u32sub tip 6 ≤ c →
      best_height ledger remote tip c = Except.ok m →
      m ≤ c ∧ (m = 0 ∨ ledger m = some (remote m)) ∧
      ∀ k, m < k → k ≤ c → ledger k ≠ some (remote k) := by
  constructor
  · rw [best_height_guard_true ledger remote tip h hguard]
    obtain ⟨n, rfl⟩ : ∃ n, h = n + 1 := ⟨h - 1, by omega⟩
    have hstep : best_height_walk ledger remote (n + 1) =
        best_height_walk ledger remote n := by
      rw [best_height_walk]
      rw [ha]
      simp only [hne, ite_false, if_false]
    rw [hstep]
    simp only [Nat.add_sub_cancel] at hb ⊢
    cases n with
    | zero => rfl
    | succ j =>
      rw [best_height_walk, hb]
      simp
  · intro c m hc hm
    rw [best_height_guard_true ledger remote tip c hc] at hm
    exact walk_ok_spec ledger remote c m hm

/-- Witness for C3 at a concrete input: with remote tip 10, a ledger whose
hash at height 9 disagrees with the remote chain and whose hash at height 8
agrees, the resolver returns 8. -/
theorem best_height_reorg_step_witness :
    best_height ledgerW remoteW 10 9 = Except.ok 8 :=
  (best_height_reorg_step ledgerW remoteW 10 9 [1] (by decide) (by decide)
    rfl (by decide) rfl).1

/-- C4: for every candidate strictly below the remote tip minus 6 (over the
integers, so in particular the subtraction does not wrap), `best_height`
returns the candidate unchanged and performs no local or remote blockhash
retrievals or comparisons at all. -/
theorem best_height_fast_path (ledger : Nat → Option (List Nat))
    (remote : Nat → List Nat) (tip candidate : Nat)
    (htip : tip < 4294967296) (hc : candidate + 6 < tip) :
    best_height ledger remote tip candidate = Except.ok candidate ∧
    best_height_calls ledger remote tip candidate = 0 := by
  have hguard : ¬ u32sub tip 6 ≤ candidate := by
    rw [u32sub_six_ge tip (by omega) htip]
    omega
  constructor
  · rw [best_height]
    rw [if_neg hguard]
  · rw [best_height_calls]
    rw [if_neg hguard]

/-- Witness for C4 at a concrete input: with remote tip 100, candidate 10 is
deep history and is returned unchanged with zero hash comparisons. -/
theorem best_height_fast_path_witness :
    best_height ledgerW remoteW 100 10 = Except.ok 10 ∧
    best_height_calls ledgerW remoteW 100 10 = 0 :=
  best_height_fast_path ledgerW remoteW 100 10 (by decide) (by decide)

/-- C5 counterexample: the resolver's missing-hash error is not propagated
as a hard failure of the sync-loop iteration.  With remote tip 10 and a
ledger missing the hash at candidate height 9, `best_height` returns the
error, but the loop's handling of the resolver result (`bestOf`, from
`Err(_) => i` in `run`) maps it to the candidate height 9 and the iteration
proceeds normally with that height. -/
theorem best_height_gap_swallowed :
    best_height ledgerGap remoteW 10 9 =
      Except.error "failed to retrieve blockhash" ∧
    bestOf (best_height ledgerGap remoteW 10 9) 9 = 9 := by
  exact ⟨rfl, rfl⟩

/-- C5 (amended): whenever the walk needs the local blockhash at the
candidate height and the ledger has no entry there, `best_height` returns
`Err("failed to retrieve blockhash")` rather than treating the gap as a
match; but the sync loop swallows the error: `run` maps every resolver
failure to the unresolved candidate height and continues the iteration. -/
theorem best_height_gap_error_fallback (ledger : Nat → Option (List Nat))
    (remote : Nat → List Nat) (tip h : Nat)
    (hguard : u32sub tip 6 ≤ h) (h1 : 1 ≤ h) (hmiss : ledger h = none) :
    best_height ledger remote tip h =
      Except.error "failed to retrieve blockhash" ∧
    ∀ i, bestOf (best_height ledger remote tip h) i = i := by
  have herr : best_height ledger remote tip h =
      Except.error "failed to retrieve blockhash" := by
    rw [best_height_guard_true ledger remote tip h hguard]
    obtain ⟨n, rfl⟩ : ∃ n, h = n + 1 := ⟨h - 1, by omega⟩
    rw [best_height_walk]
    rw [hmiss]
  refine ⟨herr, fun i => ?_⟩
  rw [herr]
  rfl

/-- Witness for the amended C5 at a concrete input: the loop continues with
candidate 9 after the resolver error. -/
theorem best_height_gap_error_fallback_witness :
    bestOf (best_height ledgerGap remoteW 10 9) 5 = 5 :=
  (best_height_gap_error_fallback ledgerGap remoteW 10 9 (by decide)
    (by decide) rfl).2 5

/-- The retry loop returns the store's answer after exactly as many resets
as there were failed attempts, each preceded by the fixed backoff. -/
theorem retryOp_fail_then_ok {A : Type} (a : A) (e : String) :
    ∀ n : Nat,
      retryOp (fun j => if j < n then (Except.error e : Except String A)
        else Except.ok a) (n + 1) = some (a, n * TIMEOUT) := by
  intro n
  induction n with
  | zero => rfl
  | succ k ih =>
    have hshift :
        (fun j => if j + 1 < k + 1 then (Except.error e : Except String A)
          else Except.ok a) =
        (fun j => if j < k then (Except.error e : Except String A)
          else Except.ok a) := by
      funext j
      by_cases hj : j < k
      · rw [if_pos hj, if_pos (Nat.succ_lt_succ hj)]
      · rw [if_neg hj, if_neg (fun hc => hj (Nat.lt_of_succ_lt_succ hc))]
    rw [retryOp]
    simp only [Nat.zero_lt_succ, if_true, ite_true]
    simp only [hshift, ih, Option.map_some]
    simp [Nat.succ_mul]

/-- C6: the adapter's `get`, `put`, `delete` and `write` absorb transport
failures: against a store endpoint that fails its first `n` attempts and
then succeeds, each operation returns the correct success value (never a
transport error) after `n` reconnect cycles of 1500 ms backoff each. -/
theorem adapter_retry_success (label : Option (List Nat)) (s : Store)
    (n h2 : Nat) (k v : List Nat) (batch : List (List Nat × List Nat)) :
    adapter_get_retry s n k (n + 1) = some (storeGet s k, n * TIMEOUT) ∧
    adapter_put_retry label s n k v (n + 1) =
      some (storePut s (to_redis_key label k) v, n * TIMEOUT) ∧
    adapter_del_retry s n k (n + 1) = some (storeDel s k, n * TIMEOUT) ∧
    adapter_write_retry label s n h2 batch (n + 1) =
      some (apply_puts s (List.flatten (write_units_dyn label h2 batch)),
        n * TIMEOUT) :=
  ⟨retryOp_fail_then_ok _ "transport" n, retryOp_fail_then_ok _ "transport" n,
   retryOp_fail_then_ok _ "transport" n, retryOp_fail_then_ok _ "transport" n⟩

/-- C7: if the engine's first execution of a height fails, the loop performs
exactly one state reset and exactly one retry of the same height; a
successful retry commits normally without a fatal stop, and a second
failure is fatal with no batch write committed for the height. -/
theorem run_retry_policy (h : Nat) (e : String) (r : RunOutcome) :
    (index_block h (RunOutcome.failure e) r).refreshCalls = 1 ∧
    (index_block h (RunOutcome.failure e) r).runHeights = [h, h] ∧
    (r = RunOutcome.success →
      (index_block h (RunOutcome.failure e) r).fatal = false ∧
      (index_block h (RunOutcome.failure e) r).committed = true) ∧
    (∀ e2, r = RunOutcome.failure e2 →
      (index_block h (RunOutcome.failure e) r).fatal = true ∧
      (index_block h (RunOutcome.failure e) r).committed = false) := by
  cases r with
  | success =>
    refine ⟨rfl, rfl, fun _ => ⟨rfl, rfl⟩, fun e2 hcontra => ?_⟩
    exact absurd hcontra (by simp)
  | failure e3 =>
    refine ⟨rfl, rfl, fun hcontra => ?_, fun e2 _ => ⟨rfl, rfl⟩⟩
    exact absurd hcontra (by simp)

/-- Witness for C7 at a concrete input: a doubly failing execution of height
5 ends fatal with nothing committed. -/
theorem run_retry_policy_witness :
    (index_block 5 (RunOutcome.failure "trap") (RunOutcome.failure "trap")).fatal
      = true ∧
    (index_block 5 (RunOutcome.failure "trap") (RunOutcome.failure "trap")).committed
      = false :=
  (run_retry_policy 5 "trap" (RunOutcome.failure "trap")).2.2.2 "trap" rfl

/-- Any byte vector that is not 4 long fails the `try_into::<[u8; 4]>`
conversion. -/
theorem from_le_bytes_not4 (bytes : List Nat) (h : bytes.length ≠ 4) :
    from_le_bytes bytes = none := by
  match bytes with
  | [] => rfl
  | [_] => rfl
  | [_, _] => rfl
  | [_, _, _] => rfl
  | [a, b, c, d] => exact absurd rfl h
  | _ :: _ :: _ :: _ :: _ :: _ => rfl

/-- C8: `query_height` returns the caller's default when the tip-height key
is absent or its stored value is empty; a stored value of exactly 4 bytes is
decoded little-endian; any other stored length panics; and against an empty
store the default 100 is returned. -/
theorem query_height_spec (d sb a b c e : Nat) (bytes : List Nat)
    (hne : bytes.length ≠ 0) (hn4 : bytes.length ≠ 4) :
    query_height none d = HeightResult.value d ∧
    query_height (some []) d = HeightResult.value d ∧
    query_height (some [a, b, c, e]) sb =
      HeightResult.value (a + 256 * b + 65536 * c + 16777216 * e) ∧
    query_height (some bytes) sb = HeightResult.panicked ∧
    query_height none 100 = HeightResult.value 100 := by
  refine ⟨rfl, rfl, rfl, ?_, rfl⟩
  rw [query_height]
  rw [if_neg hne]
  rw [from_le_bytes_not4 bytes hn4]

/-- Witness for C8 at concrete inputs: an absent value yields the default
100 and a malformed 3-byte value panics. -/
theorem query_height_spec_witness :
    query_height none 100 = HeightResult.value 100 ∧
    query_height (some [1, 2, 3]) 7 = HeightResult.panicked :=
  ⟨(query_height_spec 100 7 0 0 0 0 [1, 2, 3] (by decide) (by decide)).2.2.2.2,
   (query_height_spec 100 7 0 0 0 0 [1, 2, 3] (by decide) (by decide)).2.2.2.1⟩

/-- The sync-loop state after the first `k + 1` iterations: the cursor has
advanced to `h0 + k + 1` and the global `_HEIGHT` holds the same value,
whatever the resolver did. -/
theorem run_state_succ (resolve : Nat → Except String Nat) (h0 : Nat) :
    ∀ k, run_state resolve h0 (k + 1) = ⟨h0 + k + 1, h0 + k + 1⟩ := by
  intro k
  induction k with
  | zero => rfl
  | succ j ih =>
    show (run_iter resolve (run_state resolve h0 (j + 1))).1 = _
    rw [ih]
    rfl

/-- C9: in an execution where the resolver always returns its candidate
unchanged (no remote-hash mismatch) and every indexing invocation succeeds,
the batch write issued during the iteration after the one that indexes
height `h` records tip height `h + 1`; indexed heights ascend by exactly one
per iteration, and so does the tip value recorded by successive
post-iteration batch writes. -/
theorem tip_height_advance (resolve : Nat → Except String Nat) (h0 k : Nat)
    (hres : ∀ n, resolve n = Except.ok n) :
    recorded_at resolve h0 (k + 1) = indexed_at resolve h0 k + 1 ∧
    indexed_at resolve h0 (k + 1) = indexed_at resolve h0 k + 1 ∧
    recorded_at resolve h0 (k + 2) = recorded_at resolve h0 (k + 1) + 1 := by
  have hidx : ∀ m, indexed_at resolve h0 m = h0 + m := by
    intro m
    show bestOf (resolve (run_state resolve h0 m).i) (run_state resolve h0 m).i
      = h0 + m
    rw [hres]
    cases m with
    | zero => rfl
    | succ j =>
      rw [run_state_succ resolve h0 j]
      rfl
  have hrec : ∀ m, recorded_at resolve h0 (m + 1) = h0 + m + 1 := by
    intro m
    show (run_state resolve h0 (m + 1)).gHeight = h0 + m + 1
    rw [run_state_succ resolve h0 m]
  refine ⟨?_, ?_, ?_⟩
  · rw [hrec k, hidx k]
  · rw [hidx (k + 1), hidx k]
    omega
  · rw [hrec (k + 1), hrec k]
    omega

/-- Witness for C9 at a concrete input: starting from height 7, the write of
iteration 3 records one more than the height iteration 2 indexed. -/
theorem tip_height_advance_witness :
    recorded_at resolveW 7 3 = indexed_at resolveW 7 2 + 1 :=
  (tip_height_advance resolveW 7 2 (fun _ => rfl)).1

/-- C10: on a remote chain whose tip height is below 6, the u32 subtraction
`tip - 6` in the fast-path guard wraps modulo 2^32 instead of implementing
the integer comparison: over the integers every candidate is within 6 of the
tip (so the walk should run), yet the wrapped guard fails for every
candidate height below the wrap bound, so `best_height` skips the
hash-comparison walk entirely and returns the candidate with zero
comparisons. -/
theorem best_height_genesis_underflow (ledger : Nat → Option (List Nat))
    (remote : Nat → List Nat) (tip candidate : Nat)
    (htip : tip < 6) (hc : candidate < 4294967290) :
    u32sub tip 6 = tip + 4294967290 ∧
    (tip : Int) - 6 ≤ (candidate : Int) ∧
    best_height ledger remote tip candidate = Except.ok candidate ∧
    best_height_calls ledger remote tip candidate = 0 := by
  have hw : u32sub tip 6 = tip + 4294967290 := u32sub_six_lt tip htip
  have hguard : ¬ u32sub tip 6 ≤ candidate := by
    rw [hw]
    omega
  refine ⟨hw, by omega, ?_, ?_⟩
  · rw [best_height]
    rw [if_neg hguard]
  · rw [best_height_calls]
    rw [if_neg hguard]

/-- Witness for C10 at a concrete input: with remote tip 3 (near genesis)
and candidate 2, the wrapped guard value is 4294967293 and the walk is
skipped even though over the integers the candidate is within 6 of the
tip. -/
theorem best_height_genesis_underflow_witness :
    u32sub 3 6 = 4294967293 ∧
    best_height ledgerW remoteW 3 2 = Except.ok 2 ∧
    best_height_calls ledgerW remoteW 3 2 = 0 :=
  ⟨(best_height_genesis_underflow ledgerW remoteW 3 2 (by decide) (by decide)).1,
   (best_height_genesis_underflow ledgerW remoteW 3 2 (by decide) (by decide)).2.2.1,
   (best_height_genesis_underflow ledgerW remoteW 3 2 (by decide) (by decide)).2.2.2⟩
